import Mathlib

/-!
Verification development for the kieks.me brand image-generation scripts.

The definitions below are shallow embeddings of the JavaScript sources:
scripts/config-loader.mjs, scripts/avatar-generator.mjs,
scripts/linkedin-image-generator.mjs and the avatar generator with the
shadow-silhouette pipeline.  JavaScript machine numbers that hold
configured fractional multipliers are modeled as exact fractions
(an integer numerator and denominator), and Math.floor of such a product
is the flooring integer division Int.fdiv; buffers are lists of natural
numbers (byte values); fallible steps return Except or Option values.
-/

/-! Section 1: hexToRgb (scripts/config-loader.mjs lines 73-82, identical
copy in scripts/avatar-generator.mjs lines 55-64).  The source matches the
anchored case-insensitive regular expression with an optional single hash
followed by three groups of two hexadecimal digits, and parses each group
with parseInt(group, 16). -/

/-- Character class of the regex: a digit 0-9, or a letter a-f, or A-F
(case-insensitive flag).  Comparisons are on the code point. -/
def isHexDigitChar (c : Char) : Bool :=
  (48 ≤ c.toNat && c.toNat ≤ 57) ||
  (97 ≤ c.toNat && c.toNat ≤ 102) ||
  (65 ≤ c.toNat && c.toNat ≤ 70)

/-- Numeric value of one hexadecimal digit character, as parseInt base 16
assigns it: 0-9 for digits, 10-15 for a-f and A-F. -/
def hexDigitVal (c : Char) : ℕ :=
  if 48 ≤ c.toNat ∧ c.toNat ≤ 57 then c.toNat - 48
  else if 97 ≤ c.toNat ∧ c.toNat ≤ 102 then c.toNat - 97 + 10
  else c.toNat - 65 + 10

/-- Value of a two-digit hexadecimal group, parseInt(group, 16). -/
def hexPairVal (hi lo : Char) : ℕ :=
  16 * hexDigitVal hi + hexDigitVal lo

/-- RGB triple returned by hexToRgb. -/
structure RgbColor where
  r : ℕ
  g : ℕ
  b : ℕ
deriving DecidableEq

/-- Leading optional hash of the regex: consume a single leading hash
character if present. -/
def stripHash (cs : List Char) : List Char :=
  match cs with
  | c :: rest => if c = '#' then rest else c :: rest
  | [] => []

/-- Body of the regex match after the optional hash: exactly six
hexadecimal digits split into three groups of two. -/
def parseHexSix : List Char → Option RgbColor
  | [c1, c2, c3, c4, c5, c6] =>
    if isHexDigitChar c1 && isHexDigitChar c2 && isHexDigitChar c3 &&
       isHexDigitChar c4 && isHexDigitChar c5 && isHexDigitChar c6 then
      some { r := hexPairVal c1 c2, g := hexPairVal c3 c4, b := hexPairVal c5 c6 }
    else none
  | _ => none

/-- Translation of hexToRgb: match the whole string against the regex and
parse the three groups, or return null (none) when the match fails. -/
def hexToRgb (hex : String) : Option RgbColor :=
  parseHexSix (stripHash hex.toList)

/-- Specification-side predicate, following the claim wording: the string
consists of six hexadecimal digits (case-insensitive) optionally preceded
by a single hash character. -/
def sixHexOptionalHash (s : String) : Prop :=
  (s.toList.length = 6 ∧ ∀ c ∈ s.toList, isHexDigitChar c = true) ∨
  (∃ rest : List Char, s.toList = '#' :: rest ∧ rest.length = 6 ∧
    ∀ c ∈ rest, isHexDigitChar c = true)

/-! Section 2: getShadowColor (avatar generator with shadow pipeline,
lines 34-46).  The source lowercases the background color name, looks it
up in the configured shadowColorMap, returns navy when the entry is
missing or empty, and otherwise returns the first candidate. -/

/-- Lowercasing of toLowerCase, applied code point by code point. -/
def lowerString (s : String) : String :=
  String.mk (s.toList.map Char.toLower)

/-- Translation of getShadowColor.  The configured shadowColorMap object
is modeled as an association list from background color name to the
ordered candidate list. -/
def getShadowColor (colorMap : List (String × List String))
    (backgroundColor : String) : String :=
  let colorKey := lowerString backgroundColor
  match colorMap.lookup colorKey with
  | none => "navy"
  | some [] => "navy"
  | some (c :: _) => c

/-- Error taxonomy entry of the specification for shadow color lookup. -/
inductive ShadowColorError where
  | noShadowColorAvailable
deriving DecidableEq

/-- Modelled from the spec: section 4.3 demands a selection that fails
with NoShadowColorAvailable when the mapping table entry for the given
background is missing or empty.  The repository code has no such failure
path; this definition renders the claim wording so it can be compared
with the code translation above. -/
def getShadowColorSpec (colorMap : List (String × List String))
    (backgroundColor : String) : Except ShadowColorError String :=
  match colorMap.lookup (lowerString backgroundColor) with
  | some (c :: _) => Except.ok c
  | some [] => Except.error ShadowColorError.noShadowColorAvailable
  | none => Except.error ShadowColorError.noShadowColorAvailable

/-! Section 3: calculateShadowOffset (shadow avatar generator lines
53-82).  The configured offsetMultiplier values are machine numbers
holding fractions of the canvas size; they are modeled as exact fractions
num/den, and Math.floor(size * multiplier) is Int.fdiv (size * num) den. -/

/-- Exact fraction standing for a configured fractional machine number. -/
structure Frac where
  num : ℤ
  den : ℤ
deriving DecidableEq

/-- One band of the shadowOffset configuration: inclusive maximum canvas
size, offset multiplier, and minimum absolute offset. -/
structure ShadowBand where
  maxSize : ℤ
  offsetMultiplier : Frac
  minOffset : ℤ
deriving DecidableEq

/-- The three configured bands small, medium and large. -/
structure ShadowOffsetConfig where
  small : ShadowBand
  medium : ShadowBand
  large : ShadowBand
deriving DecidableEq

/-- Offset pair returned by calculateShadowOffset: both components are the
negated magnitude, shifting toward the top-left. -/
structure Offset where
  x : ℤ
  y : ℤ
deriving DecidableEq

/-- Translation of calculateShadowOffset: the if/else ladder checks the
small band, then the medium band, then falls through to the large band,
and in every branch takes max(minOffset, Math.floor(size * multiplier)). -/
def calculateShadowOffset (cfg : ShadowOffsetConfig) (size : ℤ) : Offset :=
  let offset :=
    if size ≤ cfg.small.maxSize then
      max cfg.small.minOffset
        (Int.fdiv (size * cfg.small.offsetMultiplier.num)
          cfg.small.offsetMultiplier.den)
    else if size ≤ cfg.medium.maxSize then
      max cfg.medium.minOffset
        (Int.fdiv (size * cfg.medium.offsetMultiplier.num)
          cfg.medium.offsetMultiplier.den)
    else
      max cfg.large.minOffset
        (Int.fdiv (size * cfg.large.offsetMultiplier.num)
          cfg.large.offsetMultiplier.den)
  { x := -offset, y := -offset }

/-- Magnitude of the effective shadow offset, the negation of the stored
top-left component. -/
def shadowOffsetMag (cfg : ShadowOffsetConfig) (size : ℤ) : ℤ :=
  -(calculateShadowOffset cfg size).x

/-- Ordered band table of the specification, ascending in size, with the
large band as the unconditional fallback. -/
def bandTable (cfg : ShadowOffsetConfig) : List ShadowBand :=
  [cfg.small, cfg.medium]

/-- Specification-side band selection: the first band of the ascending
table whose inclusive maximum size admits the canvas size, defaulting to
the large band. -/
def selectBand (cfg : ShadowOffsetConfig) (size : ℤ) : ShadowBand :=
  ((bandTable cfg).find? (fun b => size ≤ b.maxSize)).getD cfg.large

/-- Sample shadow offset configuration used by witnesses. -/
def cfgSample : ShadowOffsetConfig :=
  { small := { maxSize := 256, offsetMultiplier := { num := 1, den := 20 }, minOffset := 5 }
  , medium := { maxSize := 1024, offsetMultiplier := { num := 3, den := 40 }, minOffset := 10 }
  , large := { maxSize := 0, offsetMultiplier := { num := 1, den := 10 }, minOffset := 20 } }

/-- Counterexample configuration for C2: the small band has multiplier
3/100 and no minimum, so at canvas size 50 the product is 3/2. -/
def cfgRound : ShadowOffsetConfig :=
  { small := { maxSize := 100, offsetMultiplier := { num := 3, den := 100 }, minOffset := 0 }
  , medium := { maxSize := 200, offsetMultiplier := { num := 3, den := 100 }, minOffset := 0 }
  , large := { maxSize := 0, offsetMultiplier := { num := 3, den := 100 }, minOffset := 0 } }

/-! Section 4: shadow placement and clipping (shadow avatar generator
lines 182-282).  The canvas is size x size, the shadow silhouette is
shadowSize x shadowSize, and the shadow is centered and then shifted by
the negative offset pair; the visible part is cut out and the cropped
layer is placed at the clamped position. -/

/-- Shadow size: Math.max(1, Math.floor(targetSize * multiplier)), with
the configured shadowSize.multiplier as an exact fraction. -/
def shadowSizeOf (targetSize : ℤ) (multiplier : Frac) : ℤ :=
  max 1 (Int.fdiv (targetSize * multiplier.num) multiplier.den)

/-- Centering coordinate Math.floor((size - shadowSize) / 2), used for
both axes. -/
def centerOf (size shadowSize : ℤ) : ℤ :=
  Int.fdiv (size - shadowSize) 2

/-- Horizontal placement shadowX = centerX + offset.x. -/
def shadowXOf (size shadowSize : ℤ) (offset : Offset) : ℤ :=
  centerOf size shadowSize + offset.x

/-- Vertical placement shadowY = centerY + offset.y. -/
def shadowYOf (size shadowSize : ℤ) (offset : Offset) : ℤ :=
  centerOf size shadowSize + offset.y

/-- Visible source rectangle, left edge: cropLeft = max(0, -shadowX). -/
def cropLeftOf (size shadowSize : ℤ) (offset : Offset) : ℤ :=
  max 0 (-(shadowXOf size shadowSize offset))

/-- Visible source rectangle, top edge: cropTop = max(0, -shadowY). -/
def cropTopOf (size shadowSize : ℤ) (offset : Offset) : ℤ :=
  max 0 (-(shadowYOf size shadowSize offset))

/-- Visible source rectangle, right edge:
cropRight = min(shadowSize, size - shadowX). -/
def cropRightOf (size shadowSize : ℤ) (offset : Offset) : ℤ :=
  min shadowSize (size - shadowXOf size shadowSize offset)

/-- Visible source rectangle, bottom edge:
cropBottom = min(shadowSize, size - shadowY). -/
def cropBottomOf (size shadowSize : ℤ) (offset : Offset) : ℤ :=
  min shadowSize (size - shadowYOf size shadowSize offset)

/-- Visible width cropWidth = cropRight - cropLeft. -/
def cropWidthOf (size shadowSize : ℤ) (offset : Offset) : ℤ :=
  cropRightOf size shadowSize offset - cropLeftOf size shadowSize offset

/-- Visible height cropHeight = cropBottom - cropTop. -/
def cropHeightOf (size shadowSize : ℤ) (offset : Offset) : ℤ :=
  cropBottomOf size shadowSize offset - cropTopOf size shadowSize offset

/-- Final on-canvas horizontal position finalShadowX = max(0, shadowX). -/
def finalShadowXOf (size shadowSize : ℤ) (offset : Offset) : ℤ :=
  max 0 (shadowXOf size shadowSize offset)

/-- Final on-canvas vertical position finalShadowY = max(0, shadowY). -/
def finalShadowYOf (size shadowSize : ℤ) (offset : Offset) : ℤ :=
  max 0 (shadowYOf size shadowSize offset)

/-- Error raised when the visible region of the shadow layer is empty. -/
inductive ShadowLayerError where
  | emptyVisibleRegion
deriving DecidableEq

/-- Crop step of the pipeline: when any part of the shadow falls outside
the canvas the source extracts the visible rectangle.  The codec extract
call rejects a non-positive extraction area, which is the condition the
specification names EmptyVisibleRegion (Modelled from the spec: section
4.4 requires the pipeline to raise EmptyVisibleRegion instead of silently
producing a blank layer; the extraction is delegated to the external codec
collaborator, which fails on an empty area). -/
def extractVisibleShadow (size shadowSize : ℤ) (offset : Offset) :
    Except ShadowLayerError (ℤ × ℤ × ℤ × ℤ) :=
  if cropLeftOf size shadowSize offset > 0 ∨ cropTopOf size shadowSize offset > 0 ∨
     cropWidthOf size shadowSize offset < shadowSize ∨
     cropHeightOf size shadowSize offset < shadowSize then
    if 0 < cropWidthOf size shadowSize offset ∧
       0 < cropHeightOf size shadowSize offset then
      Except.ok (cropLeftOf size shadowSize offset, cropTopOf size shadowSize offset,
        cropWidthOf size shadowSize offset, cropHeightOf size shadowSize offset)
    else Except.error ShadowLayerError.emptyVisibleRegion
  else Except.ok (0, 0, shadowSize, shadowSize)

/-- Counterexample configuration for C3: a legal band table whose small
band has minimum offset 100. -/
def cfgBigOffset : ShadowOffsetConfig :=
  { small := { maxSize := 1000, offsetMultiplier := { num := 1, den := 20 }, minOffset := 100 }
  , medium := { maxSize := 2000, offsetMultiplier := { num := 1, den := 20 }, minOffset := 100 }
  , large := { maxSize := 0, offsetMultiplier := { num := 1, den := 20 }, minOffset := 100 } }

/-! Section 5: silhouette recoloring loop (shadow avatar generator lines
205-215).  The raw RGBA buffer of the resized portrait is a flat list of
byte values; for every pixel index i the loop writes the shadow color into
the three color channels and copies the source alpha at index i * 4 + 3. -/

/-- Translation of the recoloring loop: one four-byte chunk per pixel
index below shadowSize * shadowSize, reading the source alpha with the
JavaScript indexing default of zero for an out-of-range read. -/
def shadowBufferOf (shadowSize : ℕ) (portraitData : List ℕ) (rgb : RgbColor) :
    List ℕ :=
  (List.range (shadowSize * shadowSize)).flatMap fun i =>
    [rgb.r, rgb.g, rgb.b, portraitData.getD (i * 4 + 3) 0]

/-! Section 6: input validation of generateAvatar (shadow avatar
generator lines 94-165).  The source checks that the portrait file
exists, that the color name resolves in the brand color table, and that
the size is a positive integer, before creating the background canvas;
the hex string of the resolved color is parsed later and the canvas is
created from the parsed channels.  The requested size is a JavaScript
machine number, modeled as an exact rational. -/

/-- Error taxonomy of the generateAvatar validation steps. -/
inductive AvatarError where
  | portraitNotFound
  | invalidColor
  | invalidSize
  | invalidColorHex
deriving DecidableEq

/-- Canvas request built after validation: a size x size square filled
with the background color, only constructed on the success path. -/
structure CanvasSpec where
  width : ℚ
  height : ℚ
  color : RgbColor
deriving DecidableEq

/-- Translation of the validation prefix of generateAvatar, in source
order: existsSync check, brand color lookup, positive integer size check,
then hexToRgb parsing and the canvas creation. -/
def generateAvatarChecked (portraitExists : Bool)
    (colors : List (String × String)) (colorName : String) (size : ℚ) :
    Except AvatarError CanvasSpec :=
  if portraitExists = false then Except.error AvatarError.portraitNotFound
  else
    match colors.lookup (lowerString colorName) with
    | none => Except.error AvatarError.invalidColor
    | some colorHex =>
      if size ≤ 0 ∨ size.isInt = false then Except.error AvatarError.invalidSize
      else
        match hexToRgb colorHex with
        | none => Except.error AvatarError.invalidColorHex
        | some rgb => Except.ok { width := size, height := size, color := rgb }

/-! Section 7: size-constrained encoding (scripts/
linkedin-image-generator.mjs lines 317-351).  The composited image is
encoded once at the normal setting (JPEG quality 90 with mozjpeg, or PNG
compression level 9); when the byte length exceeds three megabytes the
source warns, re-encodes exactly once at the stricter setting (JPEG
quality 75, or PNG compression level 9 with effort 10), keeps that second
buffer unconditionally, and warns again when it is still over budget.
The encoder backends are abstract functions from the settings to the
produced byte buffer. -/

/-- Output format chosen for the LinkedIn image. -/
inductive OutputFormat where
  | jpeg
  | png
deriving DecidableEq

/-- Normal JPEG quality of the first encoding attempt. -/
def jpegQualityNormal : ℕ := 90

/-- Stricter JPEG quality of the single re-encoding attempt. -/
def jpegQualityCompressed : ℕ := 75

/-- Result of the encoding step: final buffer, number of encoding
attempts, and whether the final buffer was reported as still over the
byte budget. -/
structure SizedEncodeResult where
  output : List ℕ
  attempts : ℕ
  stillOverBudgetWarned : Bool

/-- First encoding attempt at the normal setting. -/
def normalEncode (encJpeg : ℕ → Bool → List ℕ) (encPng : ℕ → Option ℕ → List ℕ)
    (fmt : OutputFormat) : List ℕ :=
  match fmt with
  | OutputFormat.jpeg => encJpeg jpegQualityNormal true
  | OutputFormat.png => encPng 9 none

/-- Single re-encoding attempt at the stricter setting. -/
def compressedEncode (encJpeg : ℕ → Bool → List ℕ)
    (encPng : ℕ → Option ℕ → List ℕ) (fmt : OutputFormat) : List ℕ :=
  match fmt with
  | OutputFormat.jpeg => encJpeg jpegQualityCompressed true
  | OutputFormat.png => encPng 9 (some 10)

/-- Translation of the encoding tail of generateLinkedInImage: encode,
compare the size in megabytes against 3, re-encode once when over, return
the second buffer regardless, and record the warning when the result is
still over budget.  The function is total: no failure path exists on
budget overrun. -/
def generateLinkedInEncode (encJpeg : ℕ → Bool → List ℕ)
    (encPng : ℕ → Option ℕ → List ℕ) (fmt : OutputFormat) : SizedEncodeResult :=
  let outputBuffer := normalEncode encJpeg encPng fmt
  if 3 < ((outputBuffer.length : ℚ) / (1024 * 1024)) then
    let recompressed := compressedEncode encJpeg encPng fmt
    { output := recompressed
      attempts := 2
      stillOverBudgetWarned :=
        decide (3 < ((recompressed.length : ℚ) / (1024 * 1024))) }
  else
    { output := outputBuffer, attempts := 1, stillOverBudgetWarned := false }

/-- Abstract JPEG encoder backend used by the C6 witness: the byte length
shrinks as the quality setting drops but stays above the budget. -/
def encJpegBig : ℕ → Bool → List ℕ :=
  fun quality _ => List.replicate (quality * 100000) 0

/-- Abstract PNG encoder backend used by the C6 witness. -/
def encPngBig : ℕ → Option ℕ → List ℕ :=
  fun _ _ => []

/-! Theorems. -/

theorem hexDigitVal_le_15 (c : Char) (h : isHexDigitChar c = true) :
    hexDigitVal c ≤ 15 := by
  unfold isHexDigitChar at h
  unfold hexDigitVal
  simp only [Bool.or_eq_true, Bool.and_eq_true, decide_eq_true_eq] at h
  split_ifs with h1 h2 <;> omega

theorem hexPairVal_le_255 (hi lo : Char) (h1 : isHexDigitChar hi = true)
    (h2 : isHexDigitChar lo = true) : hexPairVal hi lo ≤ 255 := by
  have a1 := hexDigitVal_le_15 hi h1
  have a2 := hexDigitVal_le_15 lo h2
  unfold hexPairVal
  omega

theorem parseHexSix_some (cs : List Char) (h6 : cs.length = 6)
    (hall : ∀ c ∈ cs, isHexDigitChar c = true) :
    ∃ rgb, parseHexSix cs = some rgb ∧
      rgb.r ≤ 255 ∧ rgb.g ≤ 255 ∧ rgb.b ≤ 255 := by
  rcases cs with _ | ⟨c1, _ | ⟨c2, _ | ⟨c3, _ | ⟨c4, _ | ⟨c5, _ | ⟨c6, _ | ⟨c7, t⟩⟩⟩⟩⟩⟩⟩ <;>
    simp only [List.length_nil, List.length_cons] at h6 <;> try omega
  have k1 : isHexDigitChar c1 = true := hall c1 (by simp)
  have k2 : isHexDigitChar c2 = true := hall c2 (by simp)
  have k3 : isHexDigitChar c3 = true := hall c3 (by simp)
  have k4 : isHexDigitChar c4 = true := hall c4 (by simp)
  have k5 : isHexDigitChar c5 = true := hall c5 (by simp)
  have k6 : isHexDigitChar c6 = true := hall c6 (by simp)
  refine ⟨{ r := hexPairVal c1 c2, g := hexPairVal c3 c4, b := hexPairVal c5 c6 },
    ?_, ?_, ?_, ?_⟩
  · simp only [parseHexSix]
    rw [if_pos (by simp [k1, k2, k3, k4, k5, k6])]
  · exact hexPairVal_le_255 c1 c2 k1 k2
  · exact hexPairVal_le_255 c3 c4 k3 k4
  · exact hexPairVal_le_255 c5 c6 k5 k6

theorem parseHexSix_none (cs : List Char)
    (h : ¬(cs.length = 6 ∧ ∀ c ∈ cs, isHexDigitChar c = true)) :
    parseHexSix cs = none := by
  rcases cs with _ | ⟨c1, _ | ⟨c2, _ | ⟨c3, _ | ⟨c4, _ | ⟨c5, _ | ⟨c6, _ | ⟨c7, t⟩⟩⟩⟩⟩⟩⟩ <;>
    try rfl
  simp only [parseHexSix]
  rw [if_neg]
  intro hcond
  simp only [Bool.and_eq_true] at hcond
  exact h ⟨rfl, by
    intro c hc
    simp only [List.mem_cons, List.not_mem_nil, or_false] at hc
    rcases hc with rfl | rfl | rfl | rfl | rfl | rfl <;> tauto⟩

theorem stripHash_cons_hash (t : List Char) : stripHash ('#' :: t) = t := by
  simp [stripHash]

theorem stripHash_cons_ne (c : Char) (t : List Char) (h : ¬c = '#') :
    stripHash (c :: t) = c :: t := by
  simp [stripHash, h]

theorem hexList_characterization (cs : List Char) :
    (((cs.length = 6 ∧ ∀ c ∈ cs, isHexDigitChar c = true) ∨
      (∃ rest : List Char, cs = '#' :: rest ∧ rest.length = 6 ∧
        ∀ c ∈ rest, isHexDigitChar c = true)) →
      ∃ rgb, parseHexSix (stripHash cs) = some rgb ∧
        rgb.r ≤ 255 ∧ rgb.g ≤ 255 ∧ rgb.b ≤ 255) ∧
    (¬((cs.length = 6 ∧ ∀ c ∈ cs, isHexDigitChar c = true) ∨
      (∃ rest : List Char, cs = '#' :: rest ∧ rest.length = 6 ∧
        ∀ c ∈ rest, isHexDigitChar c = true)) →
      parseHexSix (stripHash cs) = none) := by
  rcases cs with _ | ⟨c, t⟩
  · constructor
    · rintro (⟨h6, _⟩ | ⟨rest, heq, _, _⟩)
      · simp at h6
      · simp at heq
    · intro _
      rfl
  · by_cases hc : c = '#'
    · subst hc
      rw [stripHash_cons_hash]
      constructor
      · rintro (⟨h6, hall⟩ | ⟨rest, heq, h6, hall⟩)
        · exact absurd (hall '#' (by simp)) (by decide)
        · have heq2 : t = rest := by simpa using heq
          subst heq2
          exact parseHexSix_some _ h6 hall
      · intro hbad
        apply parseHexSix_none
        rintro ⟨h6, hall⟩
        exact hbad (Or.inr ⟨t, rfl, h6, hall⟩)
    · rw [stripHash_cons_ne c t hc]
      constructor
      · rintro (⟨h6, hall⟩ | ⟨rest, heq, h6, hall⟩)
        · exact parseHexSix_some _ h6 hall
        · have : c = '#' ∧ t = rest := by simpa using heq
          exact absurd this.1 hc
      · intro hbad
        apply parseHexSix_none
        rintro ⟨h6, hall⟩
        exact hbad (Or.inl ⟨h6, hall⟩)

/-- Claim C9: hexToRgb returns an RGB object with every channel in the
byte range exactly when the input is six hexadecimal digits optionally
preceded by a single hash; on every other string it returns null. -/
theorem hexToRgb_characterization (s : String) :
    (sixHexOptionalHash s →
      ∃ rgb, hexToRgb s = some rgb ∧ rgb.r ≤ 255 ∧ rgb.g ≤ 255 ∧ rgb.b ≤ 255) ∧
    (¬ sixHexOptionalHash s → hexToRgb s = none) := by
  unfold sixHexOptionalHash hexToRgb
  exact hexList_characterization s.toList

/-- Witness for C9 at the concrete brand color string 00FFDC. -/
theorem hexToRgb_characterization_witness :
    ∃ rgb, hexToRgb "00FFDC" = some rgb ∧
      rgb.r ≤ 255 ∧ rgb.g ≤ 255 ∧ rgb.b ≤ 255 :=
  (hexToRgb_characterization "00FFDC").1 (Or.inl ⟨by decide, by decide⟩)

/-- Counterexample for C4: on an empty mapping table the code returns the
fallback color navy instead of failing; the spec-mandated variant fails
with NoShadowColorAvailable on the same input, so the claim that the code
fails exactly when the entry is missing or empty is false. -/
theorem getShadowColor_fallback_counterexample :
    getShadowColor [] "aqua" = "navy" ∧
    getShadowColorSpec [] "aqua" =
      Except.error ShadowColorError.noShadowColorAvailable := by
  constructor <;> rfl

/-- Claim C4 as amended: for every background color name the selection
deterministically returns the first candidate of the ordered candidate
sequence when the table entry is present and non-empty, and returns the
fallback color navy (it never fails) when the entry is missing or empty. -/
theorem getShadowColor_first_or_navy (colorMap : List (String × List String))
    (backgroundColor : String) :
    (∀ c cs, colorMap.lookup (lowerString backgroundColor) = some (c :: cs) →
      getShadowColor colorMap backgroundColor = c) ∧
    ((colorMap.lookup (lowerString backgroundColor) = none ∨
      colorMap.lookup (lowerString backgroundColor) = some []) →
      getShadowColor colorMap backgroundColor = "navy") := by
  constructor
  · intro c cs h
    simp [getShadowColor, h]
  · rintro (h | h) <;> simp [getShadowColor, h]

/-- Witness for C4 on a one-entry table and a mixed-case name. -/
theorem getShadowColor_first_or_navy_witness :
    getShadowColor [("aqua", ["fuchsia", "navy"])] "Aqua" = "fuchsia" :=
  (getShadowColor_first_or_navy [("aqua", ["fuchsia", "navy"])] "Aqua").1
    "fuchsia" ["navy"] (by decide)

theorem shadowOffsetMag_eq_selectBand (cfg : ShadowOffsetConfig) (size : ℤ) :
    shadowOffsetMag cfg size =
      max (selectBand cfg size).minOffset
        (Int.fdiv (size * (selectBand cfg size).offsetMultiplier.num)
          (selectBand cfg size).offsetMultiplier.den) := by
  unfold shadowOffsetMag calculateShadowOffset selectBand bandTable
  by_cases h1 : size ≤ cfg.small.maxSize
  · rw [List.find?_cons_of_pos _ (by simpa using h1)]
    simp [h1]
  · rw [List.find?_cons_of_neg _ (by simpa using h1)]
    by_cases h2 : size ≤ cfg.medium.maxSize
    · rw [List.find?_cons_of_pos _ (by simpa using h2)]
      simp [h1, h2]
    · rw [List.find?_cons_of_neg _ (by simpa using h2)]
      simp [h1, h2]

theorem int_fdiv_eq_floor (a d : ℤ) (hd : 0 < d) :
    a.fdiv d = ⌊(a : ℚ) / (d : ℚ)⌋ := by
  have h0 : (0 : ℚ) < (d : ℚ) := by exact_mod_cast hd
  have hchar := Int.fdiv_add_fmod a d
  have hr0 : 0 ≤ a.fmod d := Int.fmod_nonneg' a (by omega)
  have hr1 : a.fmod d < d := Int.fmod_lt_of_pos a hd
  have hle : d * a.fdiv d ≤ a := by omega
  have hlt : a < d * a.fdiv d + d := by omega
  symm
  rw [Int.floor_eq_iff]
  constructor
  · rw [le_div_iff₀ h0]
    have hq : ((d * a.fdiv d : ℤ) : ℚ) ≤ ((a : ℤ) : ℚ) := by exact_mod_cast hle
    push_cast at hq ⊢
    linarith
  · rw [div_lt_iff₀ h0]
    have hq : ((a : ℤ) : ℚ) < ((d * a.fdiv d + d : ℤ) : ℚ) := by exact_mod_cast hlt
    push_cast at hq ⊢
    linarith

theorem int_fdiv_le_fdiv (a b d : ℤ) (hd : 0 < d) (h : a ≤ b) :
    a.fdiv d ≤ b.fdiv d := by
  have h0 : (0 : ℚ) < (d : ℚ) := by exact_mod_cast hd
  rw [int_fdiv_eq_floor a d hd, int_fdiv_eq_floor b d hd]
  apply Int.floor_le_floor
  exact (div_le_div_right h0).mpr (by exact_mod_cast h)

/-- Claim C2 as amended: for every positive canvas size the effective
shadow offset equals max(minOffset, floor(C times multiplier)) of the band
chosen by scanning the ascending band table for the first inclusive
maximum size admitting C, with the large band as unconditional fallback.
The code takes the floor of the product, not the nearest integer. -/
theorem shadow_offset_tiered_floor (cfg : ShadowOffsetConfig) (size : ℤ)
    (hpos : 1 ≤ size)
    (hs : 0 < cfg.small.offsetMultiplier.den)
    (hm : 0 < cfg.medium.offsetMultiplier.den)
    (hl : 0 < cfg.large.offsetMultiplier.den) :
    shadowOffsetMag cfg size =
      max (selectBand cfg size).minOffset
        ⌊(size : ℚ) * (((selectBand cfg size).offsetMultiplier.num : ℚ) /
          ((selectBand cfg size).offsetMultiplier.den : ℚ))⌋ := by
  rw [shadowOffsetMag_eq_selectBand]
  have hd : 0 < (selectBand cfg size).offsetMultiplier.den := by
    unfold selectBand bandTable
    by_cases h1 : size ≤ cfg.small.maxSize
    · rw [List.find?_cons_of_pos _ (by simpa using h1)]
      exact hs
    · rw [List.find?_cons_of_neg _ (by simpa using h1)]
      by_cases h2 : size ≤ cfg.medium.maxSize
      · rw [List.find?_cons_of_pos _ (by simpa using h2)]
        exact hm
      · rw [List.find?_cons_of_neg _ (by simpa using h2)]
        exact hl
  rw [int_fdiv_eq_floor _ _ hd]
  congr 1
  congr 1
  push_cast
  ring

/-- Witness for C2 at canvas size 512 with the sample configuration. -/
theorem shadow_offset_tiered_floor_witness :
    shadowOffsetMag cfgSample 512 =
      max (selectBand cfgSample 512).minOffset
        ⌊((512 : ℤ) : ℚ) * (((selectBand cfgSample 512).offsetMultiplier.num : ℚ) /
          ((selectBand cfgSample 512).offsetMultiplier.den : ℚ))⌋ :=
  shadow_offset_tiered_floor cfgSample 512 (by decide) (by decide) (by decide) (by decide)

/-- Counterexample for C2 as stated: at canvas size 50 the matching band
is the small one and the claim value max(minOffset, round(50 times 3/100))
is 2, but the code computes 1 because it floors the product. -/
theorem shadow_offset_round_counterexample :
    selectBand cfgRound 50 = cfgRound.small ∧
    shadowOffsetMag cfgRound 50 = 1 ∧
    max cfgRound.small.minOffset
      (round ((50 : ℚ) * ((cfgRound.small.offsetMultiplier.num : ℚ) /
        (cfgRound.small.offsetMultiplier.den : ℚ)))) = 2 ∧
    (1 : ℤ) ≠ 2 := by
  refine ⟨by decide, by decide, ?_, by decide⟩
  have h1 : ((cfgRound.small.offsetMultiplier.num : ℚ) /
      (cfgRound.small.offsetMultiplier.den : ℚ)) = 3 / 100 := by
    norm_num [cfgRound]
  have h2 : (50 : ℚ) * (3 / 100) = 3 / 2 := by norm_num
  have h3 : round ((3 : ℚ) / 2) = 2 := by
    rw [round_eq, show (3 : ℚ) / 2 + 1 / 2 = ((2 : ℤ) : ℚ) by norm_num,
      Int.floor_intCast]
  rw [h1, h2, h3]
  decide

/-- Claim C7: within one band of the tiered offset rule (the documented
bands have nonnegative multipliers and positive denominators) the
effective shadow offset magnitude is monotone nondecreasing in the canvas
size. -/
theorem shadow_offset_monotone (cfg : ShadowOffsetConfig) (s1 s2 : ℤ)
    (hband : selectBand cfg s1 = selectBand cfg s2) (h12 : s1 ≤ s2)
    (hnum : 0 ≤ (selectBand cfg s1).offsetMultiplier.num)
    (hden : 0 < (selectBand cfg s1).offsetMultiplier.den) :
    shadowOffsetMag cfg s1 ≤ shadowOffsetMag cfg s2 := by
  rw [shadowOffsetMag_eq_selectBand, shadowOffsetMag_eq_selectBand, ← hband]
  apply max_le_max le_rfl
  apply int_fdiv_le_fdiv _ _ _ hden
  exact mul_le_mul_of_nonneg_right h12 hnum

/-- Witness for C7 inside the medium band of a sample configuration. -/
theorem shadow_offset_monotone_witness :
    shadowOffsetMag
      { small := { maxSize := 256, offsetMultiplier := { num := 1, den := 20 }, minOffset := 5 }
      , medium := { maxSize := 1024, offsetMultiplier := { num := 3, den := 40 }, minOffset := 10 }
      , large := { maxSize := 0, offsetMultiplier := { num := 1, den := 10 }, minOffset := 20 } }
      300 ≤
    shadowOffsetMag
      { small := { maxSize := 256, offsetMultiplier := { num := 1, den := 20 }, minOffset := 5 }
      , medium := { maxSize := 1024, offsetMultiplier := { num := 3, den := 40 }, minOffset := 10 }
      , large := { maxSize := 0, offsetMultiplier := { num := 1, den := 10 }, minOffset := 20 } }
      900 :=
  shadow_offset_monotone _ 300 900 (by decide) (by decide) (by decide) (by decide)

/-- Claim C5: the planned placement on each axis is the centering term
floor((C - S) / 2) minus the offset magnitude, the visible source
rectangle has the four stated edges, and the final on-canvas position is
the clamped placement. -/
theorem shadow_placement_formulas (size shadowSize offMag : ℤ) :
    shadowXOf size shadowSize { x := -offMag, y := -offMag } =
      Int.fdiv (size - shadowSize) 2 - offMag ∧
    shadowYOf size shadowSize { x := -offMag, y := -offMag } =
      Int.fdiv (size - shadowSize) 2 - offMag ∧
    cropLeftOf size shadowSize { x := -offMag, y := -offMag } =
      max 0 (-(Int.fdiv (size - shadowSize) 2 - offMag)) ∧
    cropTopOf size shadowSize { x := -offMag, y := -offMag } =
      max 0 (-(Int.fdiv (size - shadowSize) 2 - offMag)) ∧
    cropRightOf size shadowSize { x := -offMag, y := -offMag } =
      min shadowSize (size - (Int.fdiv (size - shadowSize) 2 - offMag)) ∧
    cropBottomOf size shadowSize { x := -offMag, y := -offMag } =
      min shadowSize (size - (Int.fdiv (size - shadowSize) 2 - offMag)) ∧
    finalShadowXOf size shadowSize { x := -offMag, y := -offMag } =
      max 0 (Int.fdiv (size - shadowSize) 2 - offMag) ∧
    finalShadowYOf size shadowSize { x := -offMag, y := -offMag } =
      max 0 (Int.fdiv (size - shadowSize) 2 - offMag) := by
  have hx : shadowXOf size shadowSize { x := -offMag, y := -offMag } =
      Int.fdiv (size - shadowSize) 2 - offMag := by
    unfold shadowXOf centerOf
    ring
  have hy : shadowYOf size shadowSize { x := -offMag, y := -offMag } =
      Int.fdiv (size - shadowSize) 2 - offMag := by
    unfold shadowYOf centerOf
    ring
  refine ⟨hx, hy, ?_, ?_, ?_, ?_, ?_, ?_⟩ <;>
    simp only [cropLeftOf, cropTopOf, cropRightOf, cropBottomOf,
      finalShadowXOf, finalShadowYOf, hx, hy]

/-- Claim C10: whenever the visible crop width and height are positive,
the cropped shadow layer placed at the clamped position lies entirely
inside the canvas on both axes. -/
theorem shadow_layer_in_bounds (size shadowSize : ℤ) (offset : Offset)
    (hw : 0 < cropWidthOf size shadowSize offset)
    (hh : 0 < cropHeightOf size shadowSize offset) :
    finalShadowXOf size shadowSize offset + cropWidthOf size shadowSize offset ≤ size ∧
    finalShadowYOf size shadowSize offset + cropHeightOf size shadowSize offset ≤ size := by
  simp only [cropWidthOf, cropHeightOf, cropLeftOf, cropTopOf, cropRightOf,
    cropBottomOf, finalShadowXOf, finalShadowYOf, shadowXOf, shadowYOf] at hw hh ⊢
  generalize centerOf size shadowSize = c at hw hh ⊢
  omega

/-- Witness for C10 at the end-to-end scenario sizes 512 and 614 with
offset magnitude 20. -/
theorem shadow_layer_in_bounds_witness :
    finalShadowXOf 512 614 { x := -20, y := -20 } +
      cropWidthOf 512 614 { x := -20, y := -20 } ≤ 512 ∧
    finalShadowYOf 512 614 { x := -20, y := -20 } +
      cropHeightOf 512 614 { x := -20, y := -20 } ≤ 512 :=
  shadow_layer_in_bounds 512 614 { x := -20, y := -20 } (by decide) (by decide)

theorem size_le_shadowSizeOf (size : ℤ) (m : Frac) (hsize : 1 ≤ size)
    (hm : m.den < m.num) (hden : 0 < m.den) :
    size ≤ shadowSizeOf size m := by
  unfold shadowSizeOf
  apply le_max_of_le_right
  have hchar := Int.fdiv_add_fmod (size * m.num) m.den
  have hr0 : 0 ≤ (size * m.num).fmod m.den := Int.fmod_nonneg' _ (by omega)
  have hr1 : (size * m.num).fmod m.den < m.den := Int.fmod_lt_of_pos _ hden
  by_contra hcon
  push_neg at hcon
  have t1 : m.den * Int.fdiv (size * m.num) m.den ≤ m.den * (size - 1) :=
    mul_le_mul_of_nonneg_left (by omega) (le_of_lt hden)
  have t2 : m.den * (size - 1) = m.den * size - m.den := by ring
  have t3 : size * m.den < size * m.num :=
    mul_lt_mul_of_pos_left hm (by omega)
  have t4 : m.den * size = size * m.den := mul_comm _ _
  linarith

/-- Claim C3 as corrected: with a silhouette multiplier above one and a
tiered offset magnitude that is nonnegative and smaller than the canvas
size, the visible crop width and height are both positive; and for every
placement whose crop width or height is non-positive the crop step fails
with EmptyVisibleRegion instead of producing a blank layer.  The bound on
the offset magnitude is forced by the counterexample below. -/
theorem shadow_crop_positive_guarded (size : ℤ) (m : Frac) (offMag : ℤ)
    (size2 shadowSize2 : ℤ) (offset2 : Offset)
    (hsize : 1 ≤ size) (hm : m.den < m.num) (hden : 0 < m.den)
    (hoff0 : 0 ≤ offMag) (hoffC : offMag < size)
    (hS2 : 1 ≤ shadowSize2)
    (hbad : cropWidthOf size2 shadowSize2 offset2 ≤ 0 ∨
      cropHeightOf size2 shadowSize2 offset2 ≤ 0) :
    (0 < cropWidthOf size (shadowSizeOf size m) { x := -offMag, y := -offMag } ∧
     0 < cropHeightOf size (shadowSizeOf size m) { x := -offMag, y := -offMag }) ∧
    extractVisibleShadow size2 shadowSize2 offset2 =
      Except.error ShadowLayerError.emptyVisibleRegion := by
  constructor
  · have hS : size ≤ shadowSizeOf size m := size_le_shadowSizeOf size m hsize hm hden
    have hS1 : (1 : ℤ) ≤ shadowSizeOf size m := le_max_left 1 _
    have hchar := Int.fdiv_add_fmod (size - shadowSizeOf size m) 2
    have hr0 : 0 ≤ (size - shadowSizeOf size m).fmod 2 := Int.fmod_nonneg' _ (by omega)
    have hr1 : (size - shadowSizeOf size m).fmod 2 < 2 := Int.fmod_lt_of_pos _ (by omega)
    constructor <;>
      simp only [cropWidthOf, cropHeightOf, cropLeftOf, cropTopOf, cropRightOf,
        cropBottomOf, shadowXOf, shadowYOf, centerOf] <;>
      omega
  · unfold extractVisibleShadow
    rcases hbad with hb | hb
    · rw [if_pos (Or.inr (Or.inr (Or.inl (by omega)))), if_neg (by omega)]
    · rw [if_pos (Or.inr (Or.inr (Or.inr (by omega)))), if_neg (by omega)]

/-- Witness for C3 at canvas size 512, silhouette multiplier 6/5 and
offset magnitude 20, with the guarded branch exercised at a placement
whose visible width is negative. -/
theorem shadow_crop_positive_guarded_witness :
    (0 < cropWidthOf 512 (shadowSizeOf 512 { num := 6, den := 5 }) { x := -20, y := -20 } ∧
     0 < cropHeightOf 512 (shadowSizeOf 512 { num := 6, den := 5 }) { x := -20, y := -20 }) ∧
    extractVisibleShadow 10 12 { x := -101, y := -101 } =
      Except.error ShadowLayerError.emptyVisibleRegion :=
  shadow_crop_positive_guarded 512 { num := 6, den := 5 } 20 10 12
    { x := -101, y := -101 } (by decide) (by decide) (by decide) (by decide)
    (by decide) (by decide) (by decide)

/-- Counterexample for C3 as stated: at canvas size 10 with silhouette
multiplier 6/5 (greater than one) the tiered rule yields offset magnitude
100 and the visible crop width is -89, so the clip dimensions are not
always positive for every canvas size and tiered configuration. -/
theorem shadow_crop_negative_counterexample :
    shadowOffsetMag cfgBigOffset 10 = 100 ∧
    shadowSizeOf 10 { num := 6, den := 5 } = 12 ∧
    cropWidthOf 10 (shadowSizeOf 10 { num := 6, den := 5 })
      (calculateShadowOffset cfgBigOffset 10) = -89 ∧
    ¬(0 < (-89 : ℤ)) := by
  refine ⟨by decide, by decide, by decide, by decide⟩

theorem flatMap_range_chunk_length (n : ℕ) (f : ℕ → List ℕ)
    (hf : ∀ i, (f i).length = 4) :
    ((List.range n).flatMap f).length = 4 * n := by
  induction n with
  | zero => simp
  | succ k ih =>
    rw [List.range_succ, List.flatMap_append, List.length_append, ih]
    simp [hf]
    omega

theorem flatMap_range_chunk_getD (n : ℕ) (f : ℕ → List ℕ)
    (hf : ∀ i, (f i).length = 4) (i j : ℕ) (hi : i < n) (hj : j < 4) :
    ((List.range n).flatMap f).getD (i * 4 + j) 0 = (f i).getD j 0 := by
  induction n with
  | zero => omega
  | succ k ih =>
    rw [List.range_succ, List.flatMap_append]
    have hlen := flatMap_range_chunk_length k f hf
    by_cases hik : i < k
    · rw [List.getD_append _ _ _ _ (by rw [hlen]; omega)]
      exact ih hik
    · have hieq : i = k := by omega
      subst hieq
      rw [List.getD_append_right _ _ _ _ (by rw [hlen]; omega), hlen]
      have hidx : i * 4 + j - 4 * i = j := by omega
      rw [hidx]
      simp only [List.flatMap_cons, List.flatMap_nil, List.append_nil]

/-- Claim C1: the recoloring loop produces a buffer of the same length as
the source raster in which every pixel has the shadow color in its three
color channels and the source alpha byte copied unchanged, so the color is
uniform across all pixels including those with positive alpha. -/
theorem silhouette_recolor_spec (shadowSize : ℕ) (portraitData : List ℕ)
    (rgb : RgbColor)
    (hlen : portraitData.length = shadowSize * shadowSize * 4) :
    (shadowBufferOf shadowSize portraitData rgb).length = portraitData.length ∧
    ∀ i, i < shadowSize * shadowSize →
      (shadowBufferOf shadowSize portraitData rgb).getD (i * 4) 0 = rgb.r ∧
      (shadowBufferOf shadowSize portraitData rgb).getD (i * 4 + 1) 0 = rgb.g ∧
      (shadowBufferOf shadowSize portraitData rgb).getD (i * 4 + 2) 0 = rgb.b ∧
      (shadowBufferOf shadowSize portraitData rgb).getD (i * 4 + 3) 0 =
        portraitData.getD (i * 4 + 3) 0 := by
  have hchunk : ∀ i : ℕ,
      ([rgb.r, rgb.g, rgb.b, portraitData.getD (i * 4 + 3) 0] : List ℕ).length = 4 := by
    intro i
    rfl
  constructor
  · rw [hlen]
    unfold shadowBufferOf
    rw [flatMap_range_chunk_length _ _ hchunk]
    omega
  · intro i hi
    refine ⟨?_, ?_, ?_, ?_⟩
    · have h := flatMap_range_chunk_getD (shadowSize * shadowSize) _ hchunk i 0 hi
        (by omega)
      simpa [shadowBufferOf] using h
    · have h := flatMap_range_chunk_getD (shadowSize * shadowSize) _ hchunk i 1 hi
        (by omega)
      simpa [shadowBufferOf] using h
    · have h := flatMap_range_chunk_getD (shadowSize * shadowSize) _ hchunk i 2 hi
        (by omega)
      simpa [shadowBufferOf] using h
    · have h := flatMap_range_chunk_getD (shadowSize * shadowSize) _ hchunk i 3 hi
        (by omega)
      simpa [shadowBufferOf] using h

/-- Witness for C1 on a one-pixel raster with alpha 9. -/
theorem silhouette_recolor_spec_witness :
    ([1, 2, 3, 9] : List ℕ).length = 1 * 1 * 4 ∧
    ((shadowBufferOf 1 [1, 2, 3, 9] { r := 10, g := 20, b := 30 }).length =
        ([1, 2, 3, 9] : List ℕ).length ∧
      ∀ i, i < 1 * 1 →
        (shadowBufferOf 1 [1, 2, 3, 9] { r := 10, g := 20, b := 30 }).getD (i * 4) 0 = 10 ∧
        (shadowBufferOf 1 [1, 2, 3, 9] { r := 10, g := 20, b := 30 }).getD (i * 4 + 1) 0 = 20 ∧
        (shadowBufferOf 1 [1, 2, 3, 9] { r := 10, g := 20, b := 30 }).getD (i * 4 + 2) 0 = 30 ∧
        (shadowBufferOf 1 [1, 2, 3, 9] { r := 10, g := 20, b := 30 }).getD (i * 4 + 3) 0 =
          ([1, 2, 3, 9] : List ℕ).getD (i * 4 + 3) 0) :=
  ⟨by decide, silhouette_recolor_spec 1 [1, 2, 3, 9] { r := 10, g := 20, b := 30 } (by decide)⟩

/-- Claim C8: with the portrait present and the color name resolved, the
pipeline fails with the invalid size error exactly on a non-positive or
non-integer size, before any canvas value is constructed (the canvas
record exists only on the ok path); every positive integer size passes the
size validation. -/
theorem avatar_size_validation (colors : List (String × String))
    (colorName hex : String) (size : ℚ)
    (hlook : colors.lookup (lowerString colorName) = some hex) :
    ((size ≤ 0 ∨ size.isInt = false) →
      generateAvatarChecked true colors colorName size =
        Except.error AvatarError.invalidSize) ∧
    (0 < size ∧ size.isInt = true →
      generateAvatarChecked true colors colorName size ≠
        Except.error AvatarError.invalidSize) := by
  have key : generateAvatarChecked true colors colorName size =
      (if size ≤ 0 ∨ size.isInt = false then Except.error AvatarError.invalidSize
       else
         match hexToRgb hex with
         | none => Except.error AvatarError.invalidColorHex
         | some rgb => Except.ok { width := size, height := size, color := rgb }) := by
    unfold generateAvatarChecked
    rw [if_neg (by simp), hlook]
  rw [key]
  constructor
  · intro h
    rw [if_pos h]
  · rintro ⟨h1, h2⟩
    rw [if_neg (by
      rintro (hle | hint)
      · exact absurd h1 (not_lt.mpr hle)
      · rw [h2] at hint
        exact absurd hint (by simp))]
    cases hx : hexToRgb hex <;> simp

/-- Witness for C8 with the aqua table entry and size 512. -/
theorem avatar_size_validation_witness :
    generateAvatarChecked true [("aqua", "#00FFDC")] "aqua" 512 ≠
      Except.error AvatarError.invalidSize :=
  (avatar_size_validation [("aqua", "#00FFDC")] "aqua" "#00FFDC" 512
    (by decide)).2 ⟨by decide, by decide⟩

theorem megabyte_condition_iff (len : ℕ) :
    (3 < ((len : ℚ) / (1024 * 1024))) ↔ 3 * 1024 * 1024 < len := by
  rw [lt_div_iff₀ (by norm_num : (0 : ℚ) < 1024 * 1024)]
  constructor
  · intro h
    have hq : ((3 * 1024 * 1024 : ℕ) : ℚ) < (len : ℚ) := by push_cast; linarith
    exact_mod_cast hq
  · intro h
    have hq : ((3 * 1024 * 1024 : ℕ) : ℚ) < (len : ℚ) := by exact_mod_cast h
    push_cast at hq
    linarith

/-- Claim C6: when the first encoding exceeds the three megabyte budget,
the encoder re-encodes exactly once at the strictly stricter setting
(JPEG quality drops from 90 to 75; PNG keeps maximum compression level 9
and adds effort 10), returns that second buffer whether or not it fits,
never fails on budget overrun (the function is total), and reports the
warning exactly when the second buffer is still over budget. -/
theorem linkedin_encode_budget_retry (encJpeg : ℕ → Bool → List ℕ)
    (encPng : ℕ → Option ℕ → List ℕ) (fmt : OutputFormat)
    (hover : 3 * 1024 * 1024 < (normalEncode encJpeg encPng fmt).length) :
    (generateLinkedInEncode encJpeg encPng fmt).attempts = 2 ∧
    (generateLinkedInEncode encJpeg encPng fmt).output =
      compressedEncode encJpeg encPng fmt ∧
    ((generateLinkedInEncode encJpeg encPng fmt).stillOverBudgetWarned = true ↔
      3 * 1024 * 1024 < (compressedEncode encJpeg encPng fmt).length) ∧
    jpegQualityCompressed < jpegQualityNormal := by
  unfold generateLinkedInEncode
  rw [if_pos ((megabyte_condition_iff _).mpr hover)]
  refine ⟨rfl, rfl, ?_, by decide⟩
  simp only [decide_eq_true_eq]
  exact megabyte_condition_iff _

/-- Witness for C6 with a JPEG whose first encoding is nine megabytes. -/
theorem linkedin_encode_budget_retry_witness :
    (generateLinkedInEncode encJpegBig encPngBig OutputFormat.jpeg).attempts = 2 ∧
    (generateLinkedInEncode encJpegBig encPngBig OutputFormat.jpeg).output =
      compressedEncode encJpegBig encPngBig OutputFormat.jpeg ∧
    ((generateLinkedInEncode encJpegBig encPngBig OutputFormat.jpeg).stillOverBudgetWarned = true ↔
      3 * 1024 * 1024 < (compressedEncode encJpegBig encPngBig OutputFormat.jpeg).length) ∧
    jpegQualityCompressed < jpegQualityNormal :=
  linkedin_encode_budget_retry encJpegBig encPngBig OutputFormat.jpeg (by
    simp only [normalEncode, encJpegBig, List.length_replicate, jpegQualityNormal]
    decide)
